import Mathlib

/-!
Verification of the callback-interface proxy generator
(`uniffi_macros/src/export/callback_interface.rs`).

The source file is a code generator: it emits, for a declared callback
interface, a proxy struct holding a `u64` handle, one forwarding method per
declared interface method, a `Drop` impl issuing the free call, an
`FfiConverter` impl, and metadata items.  We embed the generator as Lean
functions producing a structured representation of the generated code, and we
embed the runtime behaviour of the generated bodies (argument serialization,
the `invoke_callback` triple, the destructor's free call) as executable
functions.  Pieces of the runtime that live in the `uniffi` core crate rather
than in this file (`check_remaining`, `invoke_callback`, `IDX_CALLBACK_FREE`,
`MetadataBuffer::concat_str`, the per-argument write expressions of
`FnSignature`) are modelled from the specification and marked as such.
-/

namespace CallbackInterface

/-- A byte, kept as a `Nat`; encodings reduce values `% 256` where a byte is
stored. -/
abbrev Byte := Nat

/-- Modelled from the spec: `IDX_CALLBACK_FREE` is defined in the `uniffi`
core crate, not in this source file; the spec reserves method index 0 for the
destructor ("free") call. -/
def IDX_CALLBACK_FREE : Nat := 0

/-- The kinds of functions a `FnSignature` can describe
(`fnsig.rs::FnKind`); `gen_method_impl` accepts only `TraitMethod`, whose
`index` field is the 0-based declaration index of the method. -/
inductive FnKind where
  | Function : FnKind
  | Method : FnKind
  | Constructor : FnKind
  | TraitMethod (selfIdent : String) (index : Nat) : FnKind
deriving DecidableEq, Repr

/-- One declared parameter of an interface method.  The signature machinery
of `fnsig.rs` is not part of this source file; we keep the parameter name and,
modelled from the spec, the metadata type code of its type. -/
structure Param where
  name : String
  typeCode : Byte
deriving DecidableEq, Repr

/-- The parts of `fnsig.rs::FnSignature` that `callback_interface.rs` reads:
the method name, return type, kind, receiver, and parameters.  The
`returnTypeCode` field carries, modelled from the spec, the metadata type
code of the return type. -/
structure FnSignature where
  ident : String
  returnTy : String
  kind : FnKind
  receiver : Option Unit
  args : List Param
  returnTypeCode : Byte
deriving DecidableEq, Repr

/-- A `syn::Error`: the generator reports declaration errors as values of
this type. -/
structure SynError where
  msg : String
deriving DecidableEq, Repr

/-- The receiver form of a generated method; the generator always emits
`&self` (`fn #ident(&self, ...)`). -/
inductive SelfParam where
  | refSelf : SelfParam
deriving DecidableEq, Repr

/-- The generated proxy struct at runtime: its single field is the `u64`
handle (`struct #ident { handle: u64 }`). -/
structure Proxy where
  handle : Nat
deriving DecidableEq, Repr

/-- Constructor `impl #ident { fn new(handle: u64) -> Self { Self { handle } } }`. -/
def Proxy.new (handle : Nat) : Proxy := ⟨handle⟩

/-- A `RustBuffer` of call arguments, as the byte sequence it carries. -/
abbrev RustBuffer := List Byte

/-- Conversion `RustBuffer::from_vec` hands the byte vector to the boundary unchanged. -/
def RustBuffer.from_vec (v : List Byte) : RustBuffer := v

/-- The triple a generated body passes to `invoke_callback`:
`(self.handle, method index, argument buffer)`. -/
structure Invocation where
  handle : Nat
  methodIndex : Nat
  args : RustBuffer
deriving DecidableEq, Repr

/-- The structured form of one generated proxy method
(`fn #ident(&self, #(#params),*) -> #return_ty { ... }`): its name, its
receiver (always `&self`), its declared parameters, the method index baked
into its `invoke_callback` call, and its return type. -/
structure GeneratedMethod where
  name : String
  selfArg : SelfParam
  params : List Param
  index : Nat
  retTy : String
deriving DecidableEq, Repr

/-- Modelled from the spec: `FnSignature::write_exprs` (in `fnsig.rs`, not in
this source file) emits one codec write per declared argument; each write
appends that argument's canonical encoding to the buffer.  We represent a
call's runtime arguments by their per-argument encodings, and running the
write expressions folds the appends over the buffer in declaration order. -/
def writeExprsRun (encs : List (List Byte)) (buf : List Byte) : List Byte :=
  encs.foldl (fun b e => b ++ e) buf

/-- The runtime behaviour of a generated method body: create a fresh
`Vec::new()` buffer, run the write expressions in declaration order, wrap the
result with `RustBuffer::from_vec`, and pass
`(self.handle, #index, uniffi_args_rbuf)` to `invoke_callback`. -/
def GeneratedMethod.run (m : GeneratedMethod) (p : Proxy)
    (encs : List (List Byte)) : Invocation :=
  let uniffi_args_buf : List Byte := []
  let uniffi_args_buf := writeExprsRun encs uniffi_args_buf
  let uniffi_args_rbuf := RustBuffer.from_vec uniffi_args_buf
  ⟨p.handle, m.index, uniffi_args_rbuf⟩

/-- Generator `gen_method_impl`: computes the 1-based callback index from the declared
`TraitMethod` index (0 is reserved for the free function), rejects any other
function kind, rejects methods without a receiver, and otherwise emits the
forwarding method. -/
def gen_method_impl (sig : FnSignature) : Except SynError GeneratedMethod :=
  match sig.kind with
  | .TraitMethod _ index =>
      if sig.receiver.isNone then
        .error ⟨"callback interface methods must take &self as their first argument"⟩
      else
        .ok { name := sig.ident
              selfArg := .refSelf
              params := sig.args
              index := index + 1
              retTy := sig.returnTy }
  | _ =>
      .error ⟨"Internal UniFFI error: Unexpected function kind for callback interface"⟩

/-- Items `export::ImplItem`: the items handed to `trait_impl`; traits have no
constructors, so the `Constructor` arm of the source is `unreachable!()`. -/
inductive ImplItem where
  | Method (sig : FnSignature) : ImplItem
  | Constructor (sig : FnSignature) : ImplItem
deriving DecidableEq, Repr

/-- The structured form of the code `trait_impl` generates: the proxy struct
with its single `handle: u64` field, the generated trait methods, and the
`Drop` impl (represented by the method index and buffer its body passes to
`invoke_callback`). -/
structure TraitImplOutput where
  structName : String
  fields : List (String × String)
  methods : List GeneratedMethod
  dropIndex : Nat
  dropArgs : RustBuffer
deriving DecidableEq, Repr

/-- The per-item generator `trait_impl` maps over its items: methods go
through `gen_method_impl`; the `Constructor` arm is `unreachable!("traits
have no constructors")` in the source, modelled as an error. -/
def gen_trait_item (item : ImplItem) : Except SynError GeneratedMethod :=
  match item with
  | .Method sig => gen_method_impl sig
  | .Constructor _ => .error ⟨"unreachable: traits have no constructors"⟩

/-- Generator `trait_impl`: generates one forwarding method per item (propagating the
first generator error), the proxy struct `struct #ident { handle: u64 }`, and
the `Drop` impl whose body is
`invoke_callback::<(), _>(self.handle, IDX_CALLBACK_FREE, Default::default())`. -/
def trait_impl (ident : String) (items : List ImplItem) :
    Except SynError TraitImplOutput := do
  let methods ← items.mapM gen_trait_item
  return { structName := ident
           fields := [("handle", "u64")]
           methods := methods
           dropIndex := IDX_CALLBACK_FREE
           dropArgs := [] }

/-- The runtime behaviour of the generated `Drop` impl: it invokes the
callback with `(self.handle, IDX_CALLBACK_FREE, Default::default())`, the
default `RustBuffer` being empty. -/
def dropInvocation (p : Proxy) : Invocation :=
  ⟨p.handle, IDX_CALLBACK_FREE, []⟩

/-- The status returned by the foreign side for one boundary call
(spec section 6): success with a return buffer, an error payload, or an
unexpected failure (foreign panic/crash). -/
inductive CallStatus where
  | SUCCESS (bytes : List Byte) : CallStatus
  | ERROR (bytes : List Byte) : CallStatus
  | UNEXPECTED_FAILURE (bytes : List Byte) : CallStatus
deriving DecidableEq, Repr

/-- The foreign invoker: maps a `(handle, method index, argument buffer)`
triple to the status the foreign side produced. -/
def Invoker := Nat → Nat → RustBuffer → CallStatus

/-- An error that a non-free callback invocation can surface to the native
caller. -/
structure ForeignError where
  payload : List Byte
deriving DecidableEq, Repr

/-- Modelled from the spec: `invoke_callback::<(), _>` — the free path of the
invoker, which lives in the `uniffi` core crate — is fire-and-forget: the
return type is unit and the status of the call is not inspected, so no
foreign error or panic propagates out of it. -/
def invoke_callback_unit (inv : Invoker) (handle : Nat) (idx : Nat)
    (buf : RustBuffer) : Except ForeignError Unit :=
  match inv handle idx buf with
  | .SUCCESS _ => .ok ()
  | .ERROR _ => .ok ()
  | .UNEXPECTED_FAILURE _ => .ok ()

/-- The generated destructor body, run against an invoker: it performs the
free invocation and, its return type being unit, yields nothing. -/
def runDrop (inv : Invoker) (p : Proxy) : Except ForeignError Unit :=
  invoke_callback_unit inv p.handle IDX_CALLBACK_FREE []

/-- One lifecycle of a proxy instance, as the sequence of boundary
invocations it issues: each Rust value is dropped exactly once, after its
last use, so the trace is the method calls made through the proxy followed by
the destructor's free call. -/
def proxyTrace (p : Proxy) (calls : List (GeneratedMethod × List (List Byte))) :
    List Invocation :=
  calls.map (fun c => c.1.run p c.2) ++ [dropInvocation p]

/-- A panic message (`panic!(...)` aborts; fallible code is embedded as
`Except`). -/
structure Panic where
  msg : String
deriving DecidableEq, Repr

/-- Converter `FfiConverter::lower` for a callback interface:
`panic!("Lowering CallbackInterface not supported")` for every object. -/
def lower {α : Type} (_obj : α) : Except Panic Nat :=
  .error ⟨"Lowering CallbackInterface not supported"⟩

/-- Converter `FfiConverter::write` for a callback interface:
`panic!("Writing CallbackInterface not supported")` for every object and
buffer. -/
def write {α : Type} (_obj : α) (_buf : List Byte) :
    Except Panic (List Byte) :=
  .error ⟨"Writing CallbackInterface not supported"⟩

/-- Converter `FfiConverter::try_lift`: `Ok(Box::new(<#trait_impl_ident>::new(v)))` —
wrap the raw `u64` in a fresh proxy, unconditionally. -/
def try_lift (v : Nat) : Except String Proxy :=
  .ok (Proxy.new v)

/-- Modelled from the spec: `uniffi::check_remaining` lives in the `uniffi`
core crate; it fails with a decode error when fewer than `n` bytes remain in
the cursor and otherwise succeeds without consuming anything. -/
def check_remaining (buf : List Byte) (n : Nat) : Except String Unit :=
  if buf.length < n then
    .error "not enough bytes remaining in buffer"
  else
    .ok ()

/-- The value of a big-endian byte sequence (each byte taken `% 256`). -/
def beVal (bs : List Byte) : Nat :=
  bs.foldl (fun acc b => acc * 256 + b % 256) 0

/-- Cursor read `bytes::Buf::get_u64`: read one big-endian `u64` from the front of the
cursor and advance it 8 bytes. -/
def get_u64 (buf : List Byte) : Nat × List Byte :=
  (beVal (buf.take 8), buf.drop 8)

/-- Converter `FfiConverter::try_read`: check that 8 bytes remain, read one big-endian
`u64` from the cursor, and lift it.  The advanced cursor is returned
alongside the result (`&mut &[u8]` state passing made explicit). -/
def try_read (buf : List Byte) : Except String (Proxy × List Byte) := do
  check_remaining buf 8
  let (v, rest) := get_u64 buf
  let p ← try_lift v
  return (p, rest)

/-- A `MetadataBuffer`, as the byte sequence it carries. -/
abbrev MetadataBuffer := List Byte

/-- Builder `MetadataBuffer::from_code`: a buffer holding the one type-code byte. -/
def MetadataBuffer.from_code (c : Byte) : MetadataBuffer := [c % 256]

/-- The UTF-8 bytes of a string. -/
def strBytes (s : String) : List Byte :=
  s.toUTF8.toList.map (fun b => b.toNat)

/-- Modelled from the spec: `MetadataBuffer::concat_str` lives in the
`uniffi` core crate; it appends a length-prefixed UTF-8 string (one length
byte followed by the raw bytes). -/
def MetadataBuffer.concat_str (buf : MetadataBuffer) (s : String) :
    MetadataBuffer :=
  buf ++ ((strBytes s).length % 256) :: strBytes s

/-- Modelled from the spec: the `CALLBACK_INTERFACE` metadata type code is
defined in `uniffi::metadata::codes`, not in this source file; its concrete
value is immaterial here, only that it is the single leading type-code
byte. -/
def CALLBACK_INTERFACE : Byte := 19

/-- Modelled from the spec: `TYPE_CALLBACK_INTERFACE` metadata type code
(`uniffi::metadata::codes`), used by the converter's `TYPE_ID_META`. -/
def TYPE_CALLBACK_INTERFACE : Byte := 20

/-- Constant `TYPE_ID_META` of the generated `FfiConverter`:
`from_code(TYPE_CALLBACK_INTERFACE).concat_str(mod_path).concat_str(name)`. -/
def TYPE_ID_META (mod_path name : String) : MetadataBuffer :=
  ((MetadataBuffer.from_code TYPE_CALLBACK_INTERFACE).concat_str
    mod_path).concat_str name

/-- Modelled from the spec: `FnSignature::metadata_items` (in `fnsig.rs`, not
in this source file) yields the per-method metadata chunk: the method name,
the argument type codes, and the return type code. -/
def methodMetadata (sig : FnSignature) : MetadataBuffer :=
  (MetadataBuffer.concat_str [] sig.ident) ++
    sig.args.map (fun p => p.typeCode % 256) ++ [sig.returnTypeCode % 256]

/-- The per-item step of `metadata_items`: each method contributes its
`sig.metadata_items()` chunk; the `Constructor` arm is `unreachable!()` in
the source, modelled as an error. -/
def meta_item (item : ImplItem) : Except SynError MetadataBuffer :=
  match item with
  | .Method sig => .ok (methodMetadata sig)
  | .Constructor _ => .error ⟨"unreachable: traits have no constructors"⟩

/-- Generator `metadata_items`: one metadata buffer for the interface itself —
`from_code(CALLBACK_INTERFACE).concat_str(module_path).concat_str(trait_name)`
— followed by one metadata chunk per method, in item order. -/
def metadata_items (self_ident : String) (items : List ImplItem)
    (module_path : String) : Except SynError (List MetadataBuffer) := do
  let trait_name := self_ident
  let head :=
    ((MetadataBuffer.from_code CALLBACK_INTERFACE).concat_str
      module_path).concat_str trait_name
  let tail ← items.mapM meta_item
  return head :: tail

/-! ## Helper lemmas -/

theorem writeExprsRun_eq (encs : List (List Byte)) (buf : List Byte) :
    writeExprsRun encs buf = buf ++ encs.flatten := by
  induction encs generalizing buf with
  | nil => simp [writeExprsRun]
  | cons e es ih =>
      show writeExprsRun es (buf ++ e) = _
      rw [ih]
      simp

theorem gen_method_impl_ok_shape (sig : FnSignature) (m : GeneratedMethod)
    (h : gen_method_impl sig = Except.ok m) :
    ∃ s i, sig.kind = FnKind.TraitMethod s i ∧ sig.receiver = some () ∧
      m = ⟨sig.ident, .refSelf, sig.args, i + 1, sig.returnTy⟩ := by
  cases hk : sig.kind with
  | TraitMethod s i =>
      rw [gen_method_impl, hk] at h
      cases hr : sig.receiver with
      | none => simp [hr] at h
      | some u =>
          simp [hr] at h
          exact ⟨s, i, rfl, rfl, h.symm⟩
  | Function => rw [gen_method_impl, hk] at h; exact absurd h (by simp)
  | Method => rw [gen_method_impl, hk] at h; exact absurd h (by simp)
  | Constructor => rw [gen_method_impl, hk] at h; exact absurd h (by simp)

theorem gen_method_impl_index_pos (sig : FnSignature) (m : GeneratedMethod)
    (h : gen_method_impl sig = Except.ok m) : 0 < m.index := by
  obtain ⟨s, i, -, -, hm⟩ := gen_method_impl_ok_shape sig m h
  subst hm
  exact Nat.succ_pos i

/-! ## Claim theorems -/

/-- Claim C1: a declared interface method with 0-based declaration index `i`
generates a proxy method that dispatches through the invoker with method
index `i + 1` (1-based, index 0 reserved for the free call), and its body
passes exactly `(self.handle, i + 1, argument buffer)` to
`invoke_callback`. -/
theorem method_dispatches_one_based (sig : FnSignature) (s : String) (i : Nat)
    (hk : sig.kind = FnKind.TraitMethod s i) (hr : sig.receiver = some ()) :
    ∃ m, gen_method_impl sig = Except.ok m ∧ m.index = i + 1 ∧
      ∀ (p : Proxy) (encs : List (List Byte)),
        m.run p encs = ⟨p.handle, i + 1, writeExprsRun encs []⟩ := by
  refine ⟨⟨sig.ident, .refSelf, sig.args, i + 1, sig.returnTy⟩, ?_, rfl, ?_⟩
  · rw [gen_method_impl, hk, hr]
    rfl
  · intro p encs
    rfl

/-- Witness for C1: in an interface with methods `[a, b, c]` (declaration
indices 0, 1, 2), the generated method for `b` dispatches with method index
2. -/
theorem method_dispatches_one_based_witness :
    ∃ m,
      gen_method_impl ⟨"b", "()", FnKind.TraitMethod "T" 1, some (), [], 0⟩ =
        Except.ok m ∧
      m.index = 1 + 1 ∧
      ∀ (p : Proxy) (encs : List (List Byte)),
        m.run p encs = ⟨p.handle, 1 + 1, writeExprsRun encs []⟩ :=
  method_dispatches_one_based _ "T" 1 rfl rfl

/-- Claim C3: every generated proxy method serializes its arguments into a
freshly created call buffer in declaration order — the buffer handed to the
invoker is exactly the concatenation of the per-argument write outputs,
starting from the empty `Vec::new()` buffer. -/
theorem method_serializes_in_declaration_order (sig : FnSignature)
    (m : GeneratedMethod) (h : gen_method_impl sig = Except.ok m)
    (p : Proxy) (encs : List (List Byte)) :
    (m.run p encs).args = encs.flatten ∧
    m.run p encs = ⟨p.handle, m.index, writeExprsRun encs []⟩ := by
  constructor
  · show writeExprsRun encs [] = encs.flatten
    rw [writeExprsRun_eq]
    rfl
  · rfl

/-- Witness for C3: a concrete generated method run on two arguments whose
encodings are `[1, 2]` and `[3]` passes the buffer `[1, 2, 3]`. -/
theorem method_serializes_in_declaration_order_witness :
    (GeneratedMethod.run ⟨"b", .refSelf, [], 2, "()"⟩ ⟨7⟩ [[1, 2], [3]]).args
        = List.flatten [[1, 2], [3]] ∧
    GeneratedMethod.run ⟨"b", .refSelf, [], 2, "()"⟩ ⟨7⟩ [[1, 2], [3]]
        = ⟨(7 : Nat), 2, writeExprsRun [[1, 2], [3]] []⟩ :=
  method_serializes_in_declaration_order
    ⟨"b", "()", FnKind.TraitMethod "T" 1, some (), [], 0⟩ _ rfl ⟨7⟩ _

/-- Claim C4: the destructor's free call is fire-and-forget — its return
type is unit and its status is never inspected, so for every invoker
behaviour (success, error, or foreign panic) the drop completes with no
error propagating to the native caller, and the invocation it issues is the
free call on the proxy's handle. -/
theorem drop_swallows_free_errors (inv : Invoker) (p : Proxy) :
    runDrop inv p = Except.ok () ∧
    dropInvocation p = ⟨p.handle, IDX_CALLBACK_FREE, []⟩ := by
  constructor
  · show invoke_callback_unit inv p.handle IDX_CALLBACK_FREE [] = Except.ok ()
    unfold invoke_callback_unit
    cases inv p.handle IDX_CALLBACK_FREE [] <;> rfl
  · rfl

/-- Claim C6: a handle is a 64-bit identifier and `try_lift` succeeds on
every value, wrapping exactly that handle in a fresh proxy with no validity
check. -/
theorem try_lift_total_and_exact (v : Nat) :
    try_lift v = Except.ok (Proxy.new v) ∧ (Proxy.new v).handle = v :=
  ⟨rfl, rfl⟩

/-- Claim C10: the generated converter's `lower` and `write` unconditionally
panic for every callback-interface value, while the lifting direction
(`try_lift`) is usable. -/
theorem lower_write_unsupported {α : Type} (obj : α) (buf : List Byte) :
    lower obj = Except.error ⟨"Lowering CallbackInterface not supported"⟩ ∧
    write obj buf = Except.error ⟨"Writing CallbackInterface not supported"⟩ ∧
    ∀ v, try_lift v = Except.ok (Proxy.new v) :=
  ⟨rfl, rfl, fun _ => rfl⟩

theorem mapM_meta_item (sigs : List FnSignature) :
    (sigs.map ImplItem.Method).mapM meta_item =
      Except.ok (sigs.map methodMetadata) := by
  induction sigs with
  | nil => rfl
  | cons sig rest ih =>
      simp only [List.map_cons, List.mapM_cons, meta_item, ih]
      rfl

theorem mapM_gen_trait_item (sigs : List FnSignature) :
    (sigs.map ImplItem.Method).mapM gen_trait_item =
      sigs.mapM gen_method_impl := by
  induction sigs with
  | nil => rfl
  | cons sig rest ih =>
      simp only [List.map_cons, List.mapM_cons, gen_trait_item, ih]

/-- Claim C2: one proxy lifecycle — its method calls followed by its
destruction — contains exactly one free invocation (method index 0), it is
the last event issued (no method call follows it), and it carries the
proxy's handle and an empty buffer. -/
theorem destruction_issues_exactly_one_free (p : Proxy)
    (calls : List (GeneratedMethod × List (List Byte)))
    (hgen : ∀ c ∈ calls, ∃ sig, gen_method_impl sig = Except.ok c.1) :
    List.countP (fun e => decide (e.methodIndex = IDX_CALLBACK_FREE))
      (proxyTrace p calls) = 1 ∧
    (proxyTrace p calls).getLast? = some (dropInvocation p) ∧
    dropInvocation p = ⟨p.handle, IDX_CALLBACK_FREE, []⟩ := by
  refine ⟨?_, ?_, rfl⟩
  · unfold proxyTrace
    rw [List.countP_append]
    have h1 : List.countP (fun e => decide (e.methodIndex = IDX_CALLBACK_FREE))
        (calls.map fun c => c.1.run p c.2) = 0 := by
      rw [List.countP_eq_zero]
      intro e he
      simp only [List.mem_map] at he
      obtain ⟨c, hc, rfl⟩ := he
      obtain ⟨sig, hsig⟩ := hgen c hc
      have hpos := gen_method_impl_index_pos sig c.1 hsig
      simp only [GeneratedMethod.run, IDX_CALLBACK_FREE, decide_eq_true_eq]
      omega
    rw [h1]
    rfl
  · unfold proxyTrace
    exact List.getLast?_concat _

/-- Witness for C2: a proxy on handle 42 with one generated-method call
issues exactly one free invocation, as the last event, on handle 42 with an
empty buffer. -/
theorem destruction_issues_exactly_one_free_witness :
    List.countP (fun e => decide (e.methodIndex = IDX_CALLBACK_FREE))
      (proxyTrace ⟨42⟩ [(⟨"b", .refSelf, [], 2, "()"⟩, [[1]])]) = 1 ∧
    (proxyTrace ⟨42⟩ [(⟨"b", .refSelf, [], 2, "()"⟩, [[1]])]).getLast? =
      some (dropInvocation ⟨42⟩) ∧
    dropInvocation ⟨42⟩ = ⟨(42 : Nat), IDX_CALLBACK_FREE, []⟩ :=
  destruction_issues_exactly_one_free ⟨42⟩ _ (by
    intro c hc
    simp only [List.mem_singleton] at hc
    subst hc
    exact ⟨⟨"b", "()", FnKind.TraitMethod "T" 1, some (), [], 0⟩, rfl⟩)

/-- Claim C5: `try_read` fails with a decode error exactly when fewer than 8
bytes remain; otherwise it consumes exactly 8 bytes (one big-endian `u64`
handle), advances the cursor past them, and succeeds. -/
theorem try_read_consumes_exactly_eight (buf : List Byte) :
    (buf.length < 8 →
      try_read buf = Except.error "not enough bytes remaining in buffer") ∧
    (8 ≤ buf.length →
      try_read buf =
        Except.ok (Proxy.new (beVal (buf.take 8)), buf.drop 8)) := by
  constructor
  · intro h
    simp [try_read, check_remaining, h, get_u64, try_lift, Bind.bind,
      Except.bind]
  · intro h
    have h2 : ¬ buf.length < 8 := by omega
    simp [try_read, check_remaining, h2, get_u64, try_lift, Bind.bind,
      Except.bind, Pure.pure, Except.pure]

/-- Witness for C5: on a 9-byte buffer `try_read` consumes the first 8 bytes
and leaves the ninth; on a 3-byte buffer it fails with the decode error. -/
theorem try_read_consumes_exactly_eight_witness :
    try_read [0, 0, 0, 0, 0, 0, 0, 2, 7] =
      Except.ok (Proxy.new (beVal (List.take 8 [0, 0, 0, 0, 0, 0, 0, 2, 7])),
        List.drop 8 [0, 0, 0, 0, 0, 0, 0, 2, 7]) ∧
    try_read [1, 2, 3] = Except.error "not enough bytes remaining in buffer" :=
  ⟨(try_read_consumes_exactly_eight _).2 (by decide),
   (try_read_consumes_exactly_eight _).1 (by decide)⟩

/-- Claim C7: a method declared without a receiver is rejected by the
generator with a declaration error (no proxy method is emitted for it), and
every successfully generated proxy method takes `&self` as its first
argument. -/
theorem missing_receiver_is_declaration_error :
    (∀ sig : FnSignature, sig.receiver = none →
      ∃ e, gen_method_impl sig = Except.error e) ∧
    (∀ (sig : FnSignature) (m : GeneratedMethod),
      gen_method_impl sig = Except.ok m → m.selfArg = SelfParam.refSelf) := by
  constructor
  · intro sig hr
    cases hk : sig.kind with
    | TraitMethod s i =>
        exact ⟨⟨"callback interface methods must take &self as their first argument"⟩,
          by simp [gen_method_impl, hk, hr]⟩
    | Function =>
        exact ⟨⟨"Internal UniFFI error: Unexpected function kind for callback interface"⟩,
          by simp [gen_method_impl, hk]⟩
    | Method =>
        exact ⟨⟨"Internal UniFFI error: Unexpected function kind for callback interface"⟩,
          by simp [gen_method_impl, hk]⟩
    | Constructor =>
        exact ⟨⟨"Internal UniFFI error: Unexpected function kind for callback interface"⟩,
          by simp [gen_method_impl, hk]⟩
  · intro sig m h
    obtain ⟨s, i, -, -, hm⟩ := gen_method_impl_ok_shape sig m h
    subst hm
    rfl

/-- Witness for C7: a concrete receiverless method is rejected with an
error, and a concrete successfully generated method has the `&self`
receiver. -/
theorem missing_receiver_is_declaration_error_witness :
    (∃ e, gen_method_impl ⟨"m", "()", FnKind.TraitMethod "T" 0, none, [], 0⟩ =
      Except.error e) ∧
    GeneratedMethod.selfArg ⟨"m", .refSelf, [], 1, "()"⟩ = SelfParam.refSelf :=
  ⟨missing_receiver_is_declaration_error.1 _ rfl,
   missing_receiver_is_declaration_error.2
     ⟨"m", "()", FnKind.TraitMethod "T" 0, some (), [], 0⟩ _ rfl⟩

/-- Claim C9: the proxy is stateless apart from its handle — the handle is
its only field (it determines the proxy, and the generated struct declares
exactly the field `handle: u64`), every generated method takes `&self`, and
every invocation the proxy issues over its whole lifetime carries the
unchanged handle it was constructed with. -/
theorem proxy_is_stateless_handle_only :
    (∀ p q : Proxy, p.handle = q.handle → p = q) ∧
    (∀ (ident : String) (items : List ImplItem) (out : TraitImplOutput),
      trait_impl ident items = Except.ok out →
        out.fields = [("handle", "u64")]) ∧
    (∀ (sig : FnSignature) (m : GeneratedMethod),
      gen_method_impl sig = Except.ok m → m.selfArg = SelfParam.refSelf) ∧
    (∀ (p : Proxy) (calls : List (GeneratedMethod × List (List Byte))),
      ∀ e ∈ proxyTrace p calls, e.handle = p.handle) := by
  refine ⟨?_, ?_, ?_, ?_⟩
  · intro p q h
    cases p
    cases q
    simpa using h
  · intro ident items out h
    cases hm : items.mapM gen_trait_item with
    | error e =>
        rw [trait_impl] at h
        rw [hm] at h
        exact absurd h (by simp [Bind.bind, Except.bind])
    | ok ms =>
        rw [trait_impl] at h
        rw [hm] at h
        simp only [Bind.bind, Except.bind, Pure.pure, Except.pure,
          Except.ok.injEq] at h
        rw [← h]
  · intro sig m h
    obtain ⟨s, i, -, -, hm⟩ := gen_method_impl_ok_shape sig m h
    subst hm
    rfl
  · intro p calls e he
    unfold proxyTrace at he
    rw [List.mem_append] at he
    cases he with
    | inl hmem =>
        simp only [List.mem_map] at hmem
        obtain ⟨c, -, rfl⟩ := hmem
        rfl
    | inr hmem =>
        simp only [List.mem_singleton] at hmem
        subst hmem
        rfl

/-- Witness for C9: concrete instances — equal-handle proxies coincide, a
concrete `trait_impl` output declares only the `handle: u64` field, a
concrete generated method has the `&self` receiver, and the free invocation
of a proxy on handle 5 carries handle 5. -/
theorem proxy_is_stateless_handle_only_witness :
    (Proxy.mk 5 = Proxy.mk 5) ∧
    TraitImplOutput.fields
      ⟨"T", [("handle", "u64")], [], IDX_CALLBACK_FREE, []⟩ =
        [("handle", "u64")] ∧
    GeneratedMethod.selfArg ⟨"m", .refSelf, [], 1, "()"⟩ =
      SelfParam.refSelf ∧
    Invocation.handle (dropInvocation ⟨5⟩) = Proxy.handle ⟨5⟩ :=
  ⟨proxy_is_stateless_handle_only.1 ⟨5⟩ ⟨5⟩ rfl,
   proxy_is_stateless_handle_only.2.1 "T" [] _ rfl,
   proxy_is_stateless_handle_only.2.2.1
     ⟨"m", "()", FnKind.TraitMethod "T" 0, some (), [], 0⟩ _ rfl,
   proxy_is_stateless_handle_only.2.2.2 ⟨5⟩ [] _ (by decide)⟩

/-- Claim C8: the metadata produced for a declared interface is the 1-byte
`CALLBACK_INTERFACE` type code followed by the length-prefixed module-path
string and the length-prefixed interface-name string, and then one metadata
chunk per method in the very list order from which `trait_impl` assigns the
method indices. -/
theorem metadata_buffer_layout (self_ident module_path : String)
    (sigs : List FnSignature) :
    metadata_items self_ident (sigs.map ImplItem.Method) module_path =
      Except.ok
        ((((MetadataBuffer.from_code CALLBACK_INTERFACE).concat_str
            module_path).concat_str self_ident) :: sigs.map methodMetadata) ∧
    ((MetadataBuffer.from_code CALLBACK_INTERFACE).concat_str
        module_path).concat_str self_ident =
      CALLBACK_INTERFACE % 256 ::
        ((((strBytes module_path).length % 256) :: strBytes module_path) ++
          (((strBytes self_ident).length % 256) :: strBytes self_ident)) ∧
    (∀ out : TraitImplOutput,
      trait_impl self_ident (sigs.map ImplItem.Method) = Except.ok out →
        sigs.mapM gen_method_impl = Except.ok out.methods) := by
  refine ⟨?_, rfl, ?_⟩
  · unfold metadata_items
    rw [mapM_meta_item]
    rfl
  · intro out h
    rw [trait_impl, mapM_gen_trait_item] at h
    cases hm : sigs.mapM gen_method_impl with
    | error e =>
        rw [hm] at h
        exact absurd h (by simp [Bind.bind, Except.bind])
    | ok ms =>
        rw [hm] at h
        simp only [Bind.bind, Except.bind, Pure.pure, Except.pure,
          Except.ok.injEq] at h
        rw [← h]

/-- Witness for C8: a concrete interface `T` in module `m` with the single
method `a` — the metadata is the interface header followed by the chunk for
`a`, and `trait_impl` assigns `a` the method index 1 from the same list. -/
theorem metadata_buffer_layout_witness :
    metadata_items "T"
        ([⟨"a", "()", FnKind.TraitMethod "T" 0, some (), [⟨"x", 3⟩], 5⟩].map
          ImplItem.Method) "m" =
      Except.ok
        ((((MetadataBuffer.from_code CALLBACK_INTERFACE).concat_str
            "m").concat_str "T") ::
          [⟨"a", "()", FnKind.TraitMethod "T" 0, some (), [⟨"x", 3⟩], 5⟩].map
            methodMetadata) ∧
    ((MetadataBuffer.from_code CALLBACK_INTERFACE).concat_str "m").concat_str
        "T" =
      CALLBACK_INTERFACE % 256 ::
        ((((strBytes "m").length % 256) :: strBytes "m") ++
          (((strBytes "T").length % 256) :: strBytes "T")) ∧
    List.mapM gen_method_impl
        [⟨"a", "()", FnKind.TraitMethod "T" 0, some (), [⟨"x", 3⟩], 5⟩] =
      Except.ok [⟨"a", .refSelf, [⟨"x", 3⟩], 1, "()"⟩] :=
  ⟨(metadata_buffer_layout "T" "m"
      [⟨"a", "()", FnKind.TraitMethod "T" 0, some (), [⟨"x", 3⟩], 5⟩]).1,
   (metadata_buffer_layout "T" "m"
      [⟨"a", "()", FnKind.TraitMethod "T" 0, some (), [⟨"x", 3⟩], 5⟩]).2.1,
   (metadata_buffer_layout "T" "m"
       [⟨"a", "()", FnKind.TraitMethod "T" 0, some (), [⟨"x", 3⟩], 5⟩]).2.2
     ⟨"T", [("handle", "u64")], [⟨"a", .refSelf, [⟨"x", 3⟩], 1, "()"⟩],
       IDX_CALLBACK_FREE, []⟩ rfl⟩

end CallbackInterface
